import Mathlib

/-!
Verification of the Vedic astrology calculation engine
(astro_calculator.py, accurate_calculator.py, skyfield_calculator.py,
config.py) against its specification.

Modelling conventions:
* Python floats are modelled as rationals (ℚ); the claims under study are
  about the algorithms, not about binary rounding.
* Python's float modulo `x % y` (sign follows the divisor, so the result
  lies in [0, y) for y > 0) is modelled by `pyMod`.
* Python's `int(x)` (truncation toward zero) is modelled by `pyInt`.
* Python's integer `%` on a positive modulus returns a non-negative
  result, which coincides with Lean's `Int.emod`, written `%` on ℤ.
* Dasha/Bhukti timelines are modelled on a continuous axis of years since
  the birth instant: the source converts a duration in years to days via
  a fixed factor of 365.25 and adds it to a datetime, an order- and
  contiguity-preserving affine step that does not affect the claims.
-/

/-- Computable floor of a rational number (the Batteries definition of
the floor, bridged to Mathlib's `Int.floor` by `ratFloor_eq`). -/
def ratFloor (x : ℚ) : ℤ := x.num / x.den

theorem ratFloor_eq (x : ℚ) : ratFloor x = ⌊x⌋ := (Rat.floor_def).symm

/-- Python float modulo: `x % y` with the result in [0, y) for y > 0. -/
def pyMod (x y : ℚ) : ℚ := x - y * ratFloor (x / y)

/-- Python `int(...)`: truncation toward zero. -/
def pyInt (x : ℚ) : ℤ := if 0 ≤ x then ratFloor x else -(ratFloor (-x))

theorem pyMod_nonneg (x y : ℚ) (hy : 0 < y) : 0 ≤ pyMod x y := by
  unfold pyMod
  rw [ratFloor_eq]
  have h := Int.floor_le (x / y)
  have h2 : y * (⌊x / y⌋ : ℚ) ≤ y * (x / y) := mul_le_mul_of_nonneg_left h (le_of_lt hy)
  rw [mul_div_cancel₀ x (ne_of_gt hy)] at h2
  linarith

theorem pyMod_lt (x y : ℚ) (hy : 0 < y) : pyMod x y < y := by
  unfold pyMod
  rw [ratFloor_eq]
  have h := Int.lt_floor_add_one (x / y)
  have h2 : y * (x / y) < y * ((⌊x / y⌋ : ℚ) + 1) := mul_lt_mul_of_pos_left h hy
  rw [mul_div_cancel₀ x (ne_of_gt hy)] at h2
  nlinarith

/-- Two values with the same `pyMod` by y differ by an integer multiple of y. -/
theorem pyMod_eq_imp (x x' y : ℚ) (h : pyMod x y = pyMod x' y) :
    ∃ k : ℤ, x - x' = y * k := by
  refine ⟨ratFloor (x / y) - ratFloor (x' / y), ?_⟩
  unfold pyMod at h
  push_cast
  linarith

theorem pyMod_zero (y : ℚ) : pyMod 0 y = 0 := by
  simp [pyMod, ratFloor_eq]

theorem pyInt_of_nonneg (x : ℚ) (h : 0 ≤ x) : pyInt x = ⌊x⌋ := by
  rw [pyInt, if_pos h, ratFloor_eq]

/-! ## AyanamsaModel and sidereal conversion

astro_calculator.py lines 19-21, 52-57, 128-132 and
accurate_calculator.py lines 20-23, 54-63, 188-192. -/

/-- Lahiri ayanamsa of VedicAstroCalculator (astro_calculator.py 52-57):
AYANAMSA_BASE + AYANAMSA_RATE * (jd - 2451545) / 365.25. -/
def get_ayanamsa (jd : ℚ) : ℚ := 23.85 + (50.29 / 3600) * ((jd - 2451545) / 365.25)

/-- Lahiri ayanamsa of AccurateVedicCalculator (accurate_calculator.py
54-63): AYANAMSA_J2000 + AYANAMSA_RATE * (jd - 2451545). -/
def get_ayanamsa_accurate (jd : ℚ) : ℚ := 23.8530556 + (50.2388475 / 3600) * (jd - 2451545)

/-- tropical_to_sidereal of VedicAstroCalculator (astro_calculator.py
128-132): (tropical - ayanamsa) % 360. -/
def tropical_to_sidereal (tropical_lon jd : ℚ) : ℚ :=
  pyMod (tropical_lon - get_ayanamsa jd) 360

/-- tropical_to_sidereal of AccurateVedicCalculator (accurate_calculator.py
188-192). -/
def tropical_to_sidereal_accurate (tropical_lon jd : ℚ) : ℚ :=
  pyMod (tropical_lon - get_ayanamsa_accurate jd) 360

/-! ## CoordinateMapper

astro_calculator.py lines 134-143 (identical in accurate_calculator.py
194-203 and skyfield_calculator.py 96-105). -/

/-- Width of one nakshatra segment, 360 / 27 degrees. -/
def nakshatra_span : ℚ := 360 / 27

/-- longitude_to_rasi (astro_calculator.py 134-136): int(longitude/30) % 12. -/
def longitude_to_rasi (longitude : ℚ) : ℤ := pyInt (longitude / 30) % 12

/-- Nakshatra index part of longitude_to_nakshatra (astro_calculator.py
138-143): int(longitude / nakshatra_span) % 27. -/
def longitude_to_nak (longitude : ℚ) : ℤ := pyInt (longitude / nakshatra_span) % 27

/-- Pada part of longitude_to_nakshatra (astro_calculator.py 138-143):
int((longitude % nakshatra_span) / (nakshatra_span / 4)) + 1. -/
def longitude_to_pada (longitude : ℚ) : ℤ :=
  pyInt (pyMod longitude nakshatra_span / (nakshatra_span / 4)) + 1

/-! ## Compatibility count expressions

astro_calculator.py lines 477, 525, 530 (the same three expressions appear
in accurate_calculator.py 623, 671, 676). Mansion indices are the list
indices produced by NAKSHATRAS_TAMIL.index, natural numbers; Python's
subtraction of two of them is integer subtraction. -/

/-- dina_count (astro_calculator.py 477): (nak2_idx - nak1_idx) % 27 + 1. -/
def dina_count (nak1_idx nak2_idx : ℕ) : ℤ := ((nak2_idx : ℤ) - (nak1_idx : ℤ)) % 27 + 1

/-- mahendra_count (astro_calculator.py 525): (nak2_idx - nak1_idx) % 27 + 1. -/
def mahendra_count (nak1_idx nak2_idx : ℕ) : ℤ := ((nak2_idx : ℤ) - (nak1_idx : ℤ)) % 27 + 1

/-- stree_count (astro_calculator.py 530): (nak2_idx - nak1_idx) % 27 + 1. -/
def stree_count (nak1_idx nak2_idx : ℕ) : ℤ := ((nak2_idx : ℤ) - (nak1_idx : ℤ)) % 27 + 1

/-- C4: For every Julian Day and every tropical longitude, the sidereal
conversion (tropical - ayanamsa(JD)) mod 360 returns a value in [0, 360),
in both the basic and the accurate calculator. -/
theorem sidereal_range_spec (tropical_lon jd : ℚ) :
    (0 ≤ tropical_to_sidereal tropical_lon jd ∧ tropical_to_sidereal tropical_lon jd < 360) ∧
    (0 ≤ tropical_to_sidereal_accurate tropical_lon jd ∧
      tropical_to_sidereal_accurate tropical_lon jd < 360) := by
  have h360 : (0 : ℚ) < 360 := by norm_num
  exact ⟨⟨pyMod_nonneg _ _ h360, pyMod_lt _ _ h360⟩,
         ⟨pyMod_nonneg _ _ h360, pyMod_lt _ _ h360⟩⟩

/-- C5: For sidereal longitudes in [0, 360) the coordinate mapping is total:
the sign index equals floor(l/30) mod 12 and lies in [0, 11], the mansion
index equals floor(l/(360/27)) mod 27 and lies in [0, 26], and the pada
equals floor((l mod (360/27))/((360/27)/4)) + 1 and lies in {1, 2, 3, 4}. -/
theorem coordinate_mapping_spec (l : ℚ) (h0 : 0 ≤ l) (h1 : l < 360) :
    (longitude_to_rasi l = ⌊l / 30⌋ % 12 ∧
      0 ≤ longitude_to_rasi l ∧ longitude_to_rasi l ≤ 11) ∧
    (longitude_to_nak l = ⌊l / nakshatra_span⌋ % 27 ∧
      0 ≤ longitude_to_nak l ∧ longitude_to_nak l ≤ 26) ∧
    (longitude_to_pada l = ⌊pyMod l nakshatra_span / (nakshatra_span / 4)⌋ + 1 ∧
      1 ≤ longitude_to_pada l ∧ longitude_to_pada l ≤ 4) := by
  have hspan : (0 : ℚ) < nakshatra_span := by norm_num [nakshatra_span]
  have hdiv30 : 0 ≤ l / 30 := by positivity
  have hdivspan : 0 ≤ l / nakshatra_span := by positivity
  have hm := pyMod_nonneg l nakshatra_span hspan
  have hmlt := pyMod_lt l nakshatra_span hspan
  have hq : (0 : ℚ) < nakshatra_span / 4 := by norm_num [nakshatra_span]
  have hpada0 : 0 ≤ pyMod l nakshatra_span / (nakshatra_span / 4) := by positivity
  refine ⟨⟨?_, ?_, ?_⟩, ⟨?_, ?_, ?_⟩, ⟨?_, ?_, ?_⟩⟩
  · rw [longitude_to_rasi, pyInt_of_nonneg _ hdiv30]
  · rw [longitude_to_rasi]
    exact Int.emod_nonneg _ (by norm_num)
  · rw [longitude_to_rasi, pyInt_of_nonneg _ hdiv30]
    have hfl : ⌊l / 30⌋ < 12 := by
      rw [Int.floor_lt]
      rw [div_lt_iff (by norm_num : (0:ℚ) < 30)]
      push_cast
      linarith
    have hfl0 : 0 ≤ ⌊l / 30⌋ := Int.floor_nonneg.mpr hdiv30
    rw [Int.emod_eq_of_lt hfl0 hfl]
    omega
  · rw [longitude_to_nak, pyInt_of_nonneg _ hdivspan]
  · rw [longitude_to_nak]
    exact Int.emod_nonneg _ (by norm_num)
  · rw [longitude_to_nak, pyInt_of_nonneg _ hdivspan]
    have hfl : ⌊l / nakshatra_span⌋ < 27 := by
      rw [Int.floor_lt]
      rw [div_lt_iff hspan]
      have : (27 : ℚ) * nakshatra_span = 360 := by norm_num [nakshatra_span]
      push_cast
      linarith
    have hfl0 : 0 ≤ ⌊l / nakshatra_span⌋ := Int.floor_nonneg.mpr hdivspan
    rw [Int.emod_eq_of_lt hfl0 hfl]
    omega
  · rw [longitude_to_pada, pyInt_of_nonneg _ hpada0]
  · rw [longitude_to_pada, pyInt_of_nonneg _ hpada0]
    have : 0 ≤ ⌊pyMod l nakshatra_span / (nakshatra_span / 4)⌋ :=
      Int.floor_nonneg.mpr hpada0
    omega
  · rw [longitude_to_pada, pyInt_of_nonneg _ hpada0]
    have hfl : ⌊pyMod l nakshatra_span / (nakshatra_span / 4)⌋ < 4 := by
      rw [Int.floor_lt]
      rw [div_lt_iff hq]
      have : (4 : ℚ) * (nakshatra_span / 4) = nakshatra_span := by ring
      push_cast
      linarith
    omega

/-- C5 witness: the coordinate-mapping theorem instantiated at the
concrete sidereal longitude 100. -/
theorem coordinate_mapping_spec_witness :
    (0 : ℚ) ≤ 100 ∧ (100 : ℚ) < 360 ∧
    ((longitude_to_rasi 100 = ⌊(100 : ℚ) / 30⌋ % 12 ∧
      0 ≤ longitude_to_rasi 100 ∧ longitude_to_rasi 100 ≤ 11) ∧
    (longitude_to_nak 100 = ⌊(100 : ℚ) / nakshatra_span⌋ % 27 ∧
      0 ≤ longitude_to_nak 100 ∧ longitude_to_nak 100 ≤ 26) ∧
    (longitude_to_pada 100 = ⌊pyMod 100 nakshatra_span / (nakshatra_span / 4)⌋ + 1 ∧
      1 ≤ longitude_to_pada 100 ∧ longitude_to_pada 100 ≤ 4)) :=
  ⟨by decide, by decide, coordinate_mapping_spec 100 (by decide) (by decide)⟩

/-- C6: The three separately computed count expressions of the Dina,
Mahendra and Stree Deergha rules agree for every pair of mansion indices
in [0, 26], and all equal ((nak2 - nak1) mod 27) + 1. -/
theorem count_rules_agree (nak1_idx nak2_idx : ℕ)
    (h1 : nak1_idx < 27) (h2 : nak2_idx < 27) :
    dina_count nak1_idx nak2_idx = mahendra_count nak1_idx nak2_idx ∧
    mahendra_count nak1_idx nak2_idx = stree_count nak1_idx nak2_idx ∧
    dina_count nak1_idx nak2_idx = ((nak2_idx : ℤ) - (nak1_idx : ℤ)) % 27 + 1 := by
  exact ⟨rfl, rfl, rfl⟩

/-- C6 witness: the count-agreement theorem instantiated at the concrete
mansion indices 5 and 9. -/
theorem count_rules_agree_witness :
    5 < 27 ∧ 9 < 27 ∧
    (dina_count 5 9 = mahendra_count 5 9 ∧
     mahendra_count 5 9 = stree_count 5 9 ∧
     dina_count 5 9 = ((9 : ℤ) - (5 : ℤ)) % 27 + 1) :=
  ⟨by decide, by decide, count_rules_agree 5 9 (by decide) (by decide)⟩

/-! ## DashaEngine

config.py lines 56-76 (DASHA_YEARS, DASHA_ORDER, NAKSHATRA_LORDS) and
astro_calculator.py lines 274-380 (calculate_dasha, calculate_bhukti;
the accurate calculator repeats the same algorithm at lines 376-493). -/

/-- The nine period lords of the Vimshottari cycle. -/
inductive Lord where
  | ketu | venus | sun | moon | mars | rahu | jupiter | saturn | mercury
deriving DecidableEq, Repr, Inhabited

/-- DASHA_YEARS (config.py 56-66): full allotment in years per lord. -/
def DASHA_YEARS : Lord → ℕ
  | .ketu => 7 | .venus => 20 | .sun => 6 | .moon => 10 | .mars => 7
  | .rahu => 18 | .jupiter => 16 | .saturn => 19 | .mercury => 17

/-- DASHA_ORDER (config.py 69): the fixed Vimshottari rotation. -/
def DASHA_ORDER : List Lord :=
  [.ketu, .venus, .sun, .moon, .mars, .rahu, .jupiter, .saturn, .mercury]

/-- NAKSHATRA_LORDS (config.py 72-76): the ruling lord of each of the 27
mansions, the 9-lord cycle repeated three times. -/
def NAKSHATRA_LORDS : List Lord :=
  [.ketu, .venus, .sun, .moon, .mars, .rahu, .jupiter, .saturn, .mercury,
   .ketu, .venus, .sun, .moon, .mars, .rahu, .jupiter, .saturn, .mercury,
   .ketu, .venus, .sun, .moon, .mars, .rahu, .jupiter, .saturn, .mercury]

/-- One Dasha or Bhukti period: its lord, start and end on the axis of
years since birth, and its duration in years. In the source a period is a
dict carrying the lord together with start/end dates (start + years * 365.25
days) and the duration. -/
structure Period where
  lord : Lord
  start : ℚ
  stop : ℚ
  years : ℚ
deriving DecidableEq, Repr

/-- Common shape of the generation loops of calculate_dasha (line 308-322)
and calculate_bhukti (line 360-378): starting at offset i of the rotation
anchored at start_index si, emit k consecutive periods, each of duration
`dur lord`, threading the current date. -/
def periods_from (dur : Lord → ℚ) (si : ℕ) : ℚ → ℕ → ℕ → List Period
  | _, _, 0 => []
  | cur, i, k+1 =>
    let lord := DASHA_ORDER.getD ((si + i) % 9) Lord.ketu
    let y := dur lord
    ⟨lord, cur, cur + y, y⟩ :: periods_from dur si (cur + y) (i+1) k

/-- nakshatra_index of calculate_dasha (line 277). -/
def nakshatraIndexOf (moon_longitude : ℚ) : ℕ :=
  ((pyInt (moon_longitude / nakshatra_span)) % 27).toNat

/-- position_in_nak of calculate_dasha (line 280): fraction of the mansion
already elapsed, in [0, 1). -/
def positionInNak (moon_longitude : ℚ) : ℚ :=
  pyMod moon_longitude nakshatra_span / nakshatra_span

/-- start_lord of calculate_dasha (line 283). -/
def startLordOf (moon_longitude : ℚ) : Lord :=
  NAKSHATRA_LORDS.getD (nakshatraIndexOf moon_longitude) Lord.ketu

/-- start_index of calculate_dasha (line 284). -/
def startIndexOf (moon_longitude : ℚ) : ℕ :=
  DASHA_ORDER.indexOf (startLordOf moon_longitude)

/-- first_dasha_remaining of calculate_dasha (lines 287-288): the balance
of the first lord's allotment at birth. -/
def firstRemaining (moon_longitude : ℚ) : ℚ :=
  (DASHA_YEARS (startLordOf moon_longitude) : ℚ) * (1 - positionInNak moon_longitude)

/-- calculate_dasha (astro_calculator.py 274-322), the generation part:
the first (birth) period uses the balance at birth, the remaining eight
cycle through the other lords with full allotments. -/
def calculate_dasha (moon_longitude : ℚ) : List Period :=
  ⟨startLordOf moon_longitude, 0, firstRemaining moon_longitude, firstRemaining moon_longitude⟩
    :: periods_from (fun l => (DASHA_YEARS l : ℚ)) (startIndexOf moon_longitude)
         (firstRemaining moon_longitude) 1 8

/-- calculate_bhukti (astro_calculator.py 353-380): nine sub-periods
cycling from the Dasha lord's own position, each of duration
dasha_years * DASHA_YEARS[bhukti_lord] / 120. -/
def calculate_bhukti (dasha_lord : Lord) (dasha_start dasha_years : ℚ) : List Period :=
  periods_from (fun l => dasha_years * (DASHA_YEARS l : ℚ) / 120)
    (DASHA_ORDER.indexOf dasha_lord) dasha_start 0 9

/-- Current-period search of calculate_dasha (lines 329-345): the first
period whose span contains the reference instant. -/
def findCurrentDasha : List Period → ℚ → Option Period
  | [], _ => none
  | p :: ps, t => if p.start ≤ t ∧ t ≤ p.stop then some p else findCurrentDasha ps t

/-- calculate_dasha including the current-period resolution (lines 324-351):
the source reads `today = datetime.now()`; here the wall-clock instant is the
explicit parameter `today`, on the years-since-birth axis. -/
def calculate_dasha_with_today (moon_longitude today : ℚ) :
    List Period × Option Period :=
  (calculate_dasha moon_longitude, findCurrentDasha (calculate_dasha moon_longitude) today)

theorem periods_from_length (dur : Lord → ℚ) (si : ℕ) :
    ∀ (cur : ℚ) (i k : ℕ), (periods_from dur si cur i k).length = k := by
  intro cur i k
  induction k generalizing cur i with
  | zero => simp [periods_from]
  | succ k ih => simp [periods_from, ih]

theorem periods_from_getD_lord (dur : Lord → ℚ) (si : ℕ) (d : Period) :
    ∀ (cur : ℚ) (i k j : ℕ), j < k →
      ((periods_from dur si cur i k).getD j d).lord
        = DASHA_ORDER.getD ((si + i + j) % 9) Lord.ketu := by
  intro cur i k
  induction k generalizing cur i with
  | zero => omega
  | succ k ih =>
    intro j hj
    match j with
    | 0 => simp [periods_from]
    | j+1 =>
      have := ih (cur + dur (DASHA_ORDER.getD ((si + i) % 9) Lord.ketu)) (i+1) j (by omega)
      rw [show si + i + (j + 1) = si + (i + 1) + j by omega]
      simpa [periods_from] using this

theorem periods_from_getD_years (dur : Lord → ℚ) (si : ℕ) (d : Period) :
    ∀ (cur : ℚ) (i k j : ℕ), j < k →
      ((periods_from dur si cur i k).getD j d).years
        = dur (DASHA_ORDER.getD ((si + i + j) % 9) Lord.ketu) := by
  intro cur i k
  induction k generalizing cur i with
  | zero => omega
  | succ k ih =>
    intro j hj
    match j with
    | 0 => simp [periods_from]
    | j+1 =>
      have := ih (cur + dur (DASHA_ORDER.getD ((si + i) % 9) Lord.ketu)) (i+1) j (by omega)
      rw [show si + i + (j + 1) = si + (i + 1) + j by omega]
      simpa [periods_from] using this

theorem periods_from_chain (dur : Lord → ℚ) (si : ℕ) (d : Period) :
    ∀ (cur : ℚ) (i k j : ℕ), j + 1 < k →
      ((periods_from dur si cur i k).getD (j+1) d).start
        = ((periods_from dur si cur i k).getD j d).stop := by
  intro cur i k
  induction k generalizing cur i with
  | zero => omega
  | succ k ih =>
    intro j hj
    match j with
    | 0 =>
      cases k with
      | zero => omega
      | succ k => simp [periods_from]
    | j+1 =>
      have := ih (cur + dur (DASHA_ORDER.getD ((si + i) % 9) Lord.ketu)) (i+1) j (by omega)
      simpa [periods_from] using this

theorem periods_from_head_start (dur : Lord → ℚ) (si : ℕ)
    (cur : ℚ) (i k : ℕ) (d : Period) (hk : 0 < k) :
    ((periods_from dur si cur i k).getD 0 d).start = cur := by
  cases k with
  | zero => omega
  | succ k => simp [periods_from]

theorem periods_from_years_sum (dur : Lord → ℚ) (si : ℕ) :
    ∀ (cur : ℚ) (i k : ℕ),
      ((periods_from dur si cur i k).map Period.years).sum
        = ∑ j ∈ Finset.range k, dur (DASHA_ORDER.getD ((si + i + j) % 9) Lord.ketu) := by
  intro cur i k
  induction k generalizing cur i with
  | zero => simp [periods_from]
  | succ k ih =>
    rw [Finset.sum_range_succ']
    have hih := ih (cur + dur (DASHA_ORDER.getD ((si + i) % 9) Lord.ketu)) (i+1)
    simp only [periods_from, List.map_cons, List.sum_cons, hih]
    rw [add_comm]
    congr 1
    apply Finset.sum_congr rfl
    intro j _
    congr 3
    omega

instance : Inhabited Period := ⟨⟨Lord.ketu, 0, 0, 0⟩⟩

/-- C1: For every birth Moon sidereal longitude in [0, 360), calculate_dasha
generates exactly 9 periods rooted at the birth instant: the first period's
duration is fullAllotment(startLord) * (1 - fractionElapsed), hence at most
the start lord's full allotment; each later period carries the next lord of
the fixed 9-lord cycle with its full allotment; and the periods are
contiguous. -/
theorem dasha_sequence_spec (moon : ℚ) (h0 : 0 ≤ moon) (h1 : moon < 360) :
    (calculate_dasha moon).length = 9 ∧
    ((calculate_dasha moon).getD 0 default).lord = startLordOf moon ∧
    ((calculate_dasha moon).getD 0 default).start = 0 ∧
    ((calculate_dasha moon).getD 0 default).years
      = (DASHA_YEARS (startLordOf moon) : ℚ) * (1 - positionInNak moon) ∧
    ((calculate_dasha moon).getD 0 default).years ≤ (DASHA_YEARS (startLordOf moon) : ℚ) ∧
    (∀ i, 1 ≤ i → i ≤ 8 →
      ((calculate_dasha moon).getD i default).lord
        = DASHA_ORDER.getD ((startIndexOf moon + i) % 9) Lord.ketu ∧
      ((calculate_dasha moon).getD i default).years
        = (DASHA_YEARS (((calculate_dasha moon).getD i default).lord) : ℚ)) ∧
    (∀ i, i ≤ 7 →
      ((calculate_dasha moon).getD (i+1) default).start
        = ((calculate_dasha moon).getD i default).stop) := by
  have hspan : (0 : ℚ) < nakshatra_span := by norm_num [nakshatra_span]
  have hpos0 : 0 ≤ positionInNak moon := by
    rw [positionInNak]
    have := pyMod_nonneg moon nakshatra_span hspan
    positivity
  refine ⟨?_, ?_, ?_, ?_, ?_, ?_, ?_⟩
  · simp [calculate_dasha, periods_from_length]
  · simp [calculate_dasha]
  · simp [calculate_dasha]
  · simp [calculate_dasha, firstRemaining]
  · simp only [calculate_dasha, List.getD_cons_zero]
    rw [firstRemaining]
    have hy : (0 : ℚ) ≤ (DASHA_YEARS (startLordOf moon) : ℚ) := by positivity
    nlinarith
  · intro i hi1 hi8
    obtain ⟨j, rfl⟩ : ∃ j, i = j + 1 := ⟨i - 1, by omega⟩
    have hj : j < 8 := by omega
    constructor
    · simp only [calculate_dasha, List.getD_cons_succ]
      rw [periods_from_getD_lord _ _ _ _ _ _ _ hj]
      congr 2
      omega
    · simp only [calculate_dasha, List.getD_cons_succ]
      rw [periods_from_getD_years _ _ _ _ _ _ _ hj,
          periods_from_getD_lord _ _ _ _ _ _ _ hj]
  · intro i hi
    match i with
    | 0 =>
      simp only [calculate_dasha, List.getD_cons_succ, List.getD_cons_zero]
      rw [periods_from_head_start _ _ _ _ _ _ (by norm_num)]
    | j+1 =>
      have hj : j + 1 < 8 := by omega
      simp only [calculate_dasha, List.getD_cons_succ]
      exact periods_from_chain _ _ _ _ _ _ _ hj

/-- C1 witness: the Dasha-sequence theorem instantiated at the concrete
Moon longitude 100. -/
theorem dasha_sequence_spec_witness :
    (0 : ℚ) ≤ 100 ∧ (100 : ℚ) < 360 ∧
    ((calculate_dasha 100).length = 9 ∧
    ((calculate_dasha 100).getD 0 default).lord = startLordOf 100 ∧
    ((calculate_dasha 100).getD 0 default).start = 0 ∧
    ((calculate_dasha 100).getD 0 default).years
      = (DASHA_YEARS (startLordOf 100) : ℚ) * (1 - positionInNak 100) ∧
    ((calculate_dasha 100).getD 0 default).years ≤ (DASHA_YEARS (startLordOf 100) : ℚ) ∧
    (∀ i, 1 ≤ i → i ≤ 8 →
      ((calculate_dasha 100).getD i default).lord
        = DASHA_ORDER.getD ((startIndexOf 100 + i) % 9) Lord.ketu ∧
      ((calculate_dasha 100).getD i default).years
        = (DASHA_YEARS (((calculate_dasha 100).getD i default).lord) : ℚ)) ∧
    (∀ i, i ≤ 7 →
      ((calculate_dasha 100).getD (i+1) default).start
        = ((calculate_dasha 100).getD i default).stop)) :=
  ⟨by decide, by decide, dasha_sequence_spec 100 (by decide) (by decide)⟩

theorem bhukti_years_sum_aux (D : ℚ) (si : ℕ) (hsi : si < 9) :
    ∑ j ∈ Finset.range 9,
        D * (DASHA_YEARS (DASHA_ORDER.getD ((si + 0 + j) % 9) Lord.ketu) : ℚ) / 120 = D := by
  interval_cases si <;>
    (norm_num [Finset.sum_range_succ, DASHA_ORDER, DASHA_YEARS]; try ring)

/-- C2: For every Dasha lord L, start and duration D, calculate_bhukti
produces exactly 9 sub-periods starting from L's own position of the fixed
cycle, each of duration D * fullAllotment(bhuktiLord) / 120; they are
contiguous and their durations sum exactly to D. -/
theorem bhukti_subdivision_spec (L : Lord) (S D : ℚ) :
    (calculate_bhukti L S D).length = 9 ∧
    ((calculate_bhukti L S D).getD 0 default).lord = L ∧
    ((calculate_bhukti L S D).getD 0 default).start = S ∧
    (∀ j, j < 9 →
      ((calculate_bhukti L S D).getD j default).lord
        = DASHA_ORDER.getD ((DASHA_ORDER.indexOf L + j) % 9) Lord.ketu ∧
      ((calculate_bhukti L S D).getD j default).years
        = D * (DASHA_YEARS (((calculate_bhukti L S D).getD j default).lord) : ℚ) / 120) ∧
    (∀ j, j < 8 →
      ((calculate_bhukti L S D).getD (j+1) default).start
        = ((calculate_bhukti L S D).getD j default).stop) ∧
    ((calculate_bhukti L S D).map Period.years).sum = D := by
  refine ⟨?_, ?_, ?_, ?_, ?_, ?_⟩
  · simp [calculate_bhukti, periods_from_length]
  · rw [calculate_bhukti, periods_from_getD_lord _ _ _ _ _ _ _ (by norm_num : (0:ℕ) < 9)]
    cases L <;> rfl
  · exact periods_from_head_start _ _ _ _ _ _ (by norm_num)
  · intro j hj
    constructor
    · rw [calculate_bhukti, periods_from_getD_lord _ _ _ _ _ _ _ hj]
      simp
    · rw [calculate_bhukti, periods_from_getD_years _ _ _ _ _ _ _ hj,
          periods_from_getD_lord _ _ _ _ _ _ _ hj]
  · intro j hj
    exact periods_from_chain _ _ _ _ _ _ _ (by omega)
  · rw [calculate_bhukti, periods_from_years_sum]
    exact bhukti_years_sum_aux D _ (by cases L <;> decide)

/-- C8 (amended): period generation is a pure function of the Moon
longitude alone, and the full Dasha result is a function of the explicit
pair (Moon longitude, reference instant): the list component never depends
on the reference instant read from the wall clock. -/
theorem dasha_generation_deterministic (moon t1 t2 : ℚ) :
    (calculate_dasha_with_today moon t1).1 = (calculate_dasha_with_today moon t2).1 ∧
    (calculate_dasha_with_today moon t1).1 = calculate_dasha moon :=
  ⟨rfl, rfl⟩

theorem calculate_dasha_at_zero :
    calculate_dasha 0 =
      [⟨Lord.ketu, 0, 7, 7⟩, ⟨Lord.venus, 7, 27, 20⟩, ⟨Lord.sun, 27, 33, 6⟩,
       ⟨Lord.moon, 33, 43, 10⟩, ⟨Lord.mars, 43, 50, 7⟩, ⟨Lord.rahu, 50, 68, 18⟩,
       ⟨Lord.jupiter, 68, 84, 16⟩, ⟨Lord.saturn, 84, 103, 19⟩,
       ⟨Lord.mercury, 103, 120, 17⟩] := by
  have h00 : (0 : ℚ) / nakshatra_span = 0 := by norm_num [nakshatra_span]
  have hlord : startLordOf 0 = Lord.ketu := by
    rw [startLordOf, nakshatraIndexOf, h00, pyInt_of_nonneg 0 le_rfl, Int.floor_zero]
    rfl
  have hpos : positionInNak 0 = 0 := by
    rw [positionInNak, pyMod_zero, zero_div]
  have hrem : firstRemaining 0 = 7 := by
    rw [firstRemaining, hlord, hpos]
    norm_num [DASHA_YEARS]
  have hsi : startIndexOf 0 = 0 := by
    rw [startIndexOf, hlord]
    rfl
  rw [calculate_dasha, hlord, hrem, hsi]
  norm_num [periods_from, DASHA_ORDER, DASHA_YEARS]

/-- C8 counterexample: the same birth input (Moon longitude 0) queried at
two reference instants (1 year and 50 years after birth) yields different
current-Dasha components, so the source's result, which reads the instant
from datetime.now(), is not independent of the wall clock. -/
theorem clock_dependence_counterexample :
    (calculate_dasha_with_today 0 1).2 ≠ (calculate_dasha_with_today 0 50).2 := by
  simp only [calculate_dasha_with_today, calculate_dasha_at_zero]
  norm_num [findCurrentDasha]

/-! ## Rahu and Ketu

astro_calculator.py lines 121-126 and 244, accurate_calculator.py lines
178-186 and 337, skyfield_calculator.py lines 114-125. -/

/-- calculate_rahu_longitude of VedicAstroCalculator (astro_calculator.py
121-126): (125.0445 - 0.0529539 * d) % 360 with d in days from J2000. -/
def calculate_rahu_longitude (jd : ℚ) : ℚ :=
  pyMod (125.0445 - 0.0529539 * (jd - 2451545)) 360

/-- calculate_rahu_longitude of AccurateVedicCalculator
(accurate_calculator.py 178-186), with T in Julian centuries from J2000. -/
def calculate_rahu_longitude_accurate (jd : ℚ) : ℚ :=
  pyMod (125.0445479 - 1934.1362891 * ((jd - 2451545) / 36525)
    + 0.0020754 * ((jd - 2451545) / 36525) ^ 2
    + ((jd - 2451545) / 36525) ^ 3 / 467441) 360

/-- Rahu part of calculate_rahu_ketu of SkyfieldVedicCalculator
(skyfield_calculator.py 114-125). -/
def calculate_rahu_skyfield (jd : ℚ) : ℚ :=
  pyMod (125.0445479 - 1934.1362891 * ((jd - 2451545) / 36525)
    + 0.0020754 * ((jd - 2451545) / 36525) ^ 2) 360

/-- Ketu part of calculate_rahu_ketu of SkyfieldVedicCalculator
(skyfield_calculator.py 123): (rahu + 180) % 360. -/
def calculate_ketu_skyfield (jd : ℚ) : ℚ :=
  pyMod (calculate_rahu_skyfield jd + 180) 360

/-- Ketu longitude as derived from the sidereal Rahu longitude in the chart
pipelines (astro_calculator.py 244, accurate_calculator.py 337):
ketu_sid = (rahu_sid + 180) % 360. -/
def ketu_from_rahu_sid (rahu_sid : ℚ) : ℚ := pyMod (rahu_sid + 180) 360

/-- Modelled from the spec's words: the ascending-node formula
Omega(T) = 125.0445479 - 1934.1362891 T + 0.0020754 T^2. -/
def omega_spec (T : ℚ) : ℚ := 125.0445479 - 1934.1362891 * T + 0.0020754 * T ^ 2

/-- Modelled from the spec's words: the spec's Rahu longitude, Omega at T
Julian centuries from J2000, reduced mod 360. -/
def rahu_spec (jd : ℚ) : ℚ := pyMod (omega_spec ((jd - 2451545) / 36525)) 360

/-- C7 counterexample: at JD 2488070 (one Julian century after J2000) the
basic calculator's Rahu longitude differs from the spec formula
Omega(T) = 125.0445479 - 1934.1362891 T + 0.0020754 T^2 reduced mod 360:
the basic variant uses the differently rounded day-based coefficients
125.0445 and 0.0529539 deg/day and omits the quadratic term. -/
theorem rahu_formula_counterexample :
    calculate_rahu_longitude 2488070 ≠ rahu_spec 2488070 := by
  intro h
  rw [calculate_rahu_longitude, rahu_spec] at h
  obtain ⟨k, hk⟩ := pyMod_eq_imp _ _ _ h
  have ha : (125.0445 - 0.0529539 * ((2488070 : ℚ) - 2451545))
      - omega_spec (((2488070 : ℚ) - 2451545) / 36525) = -(70317 / 10000000) := by
    norm_num [omega_spec]
  rw [ha] at hk
  have hq : (k : ℚ) = -(70317 / 10000000) / 360 := by
    field_simp at hk ⊢
    linarith
  have h1 : (-1 : ℤ) < k := by
    have : (-1 : ℚ) < (k : ℚ) := by rw [hq]; norm_num
    exact_mod_cast this
  have h2 : k < 0 := by
    have : (k : ℚ) < 0 := by rw [hq]; norm_num
    exact_mod_cast this
  omega

/-- C7 (amended): the accurate and skyfield providers compute Rahu by the
spec formula Omega(T) = 125.0445479 - 1934.1362891 T + 0.0020754 T^2 in
Julian centuries from J2000 reduced mod 360 (the accurate one adding the
higher-order term T^3 / 467441), Ketu is always (Rahu + 180) mod 360, and
every variant's node longitude lies in [0, 360); the basic calculator uses
the day-based linear approximation (125.0445 - 0.0529539 d) mod 360
instead of the spec formula. -/
theorem rahu_formula_amended (jd rahu_sid : ℚ) :
    calculate_rahu_skyfield jd = rahu_spec jd ∧
    calculate_rahu_longitude_accurate jd
      = pyMod (omega_spec ((jd - 2451545) / 36525)
          + ((jd - 2451545) / 36525) ^ 3 / 467441) 360 ∧
    calculate_ketu_skyfield jd = pyMod (calculate_rahu_skyfield jd + 180) 360 ∧
    ketu_from_rahu_sid rahu_sid = pyMod (rahu_sid + 180) 360 ∧
    calculate_rahu_longitude jd
      = pyMod (125.0445 - 0.0529539 * (jd - 2451545)) 360 ∧
    (0 ≤ calculate_rahu_longitude jd ∧ calculate_rahu_longitude jd < 360) ∧
    (0 ≤ calculate_rahu_longitude_accurate jd ∧
      calculate_rahu_longitude_accurate jd < 360) ∧
    (0 ≤ calculate_rahu_skyfield jd ∧ calculate_rahu_skyfield jd < 360) ∧
    (0 ≤ calculate_ketu_skyfield jd ∧ calculate_ketu_skyfield jd < 360) := by
  have h360 : (0 : ℚ) < 360 := by norm_num
  exact ⟨rfl, rfl, rfl, rfl, rfl,
    ⟨pyMod_nonneg _ _ h360, pyMod_lt _ _ h360⟩,
    ⟨pyMod_nonneg _ _ h360, pyMod_lt _ _ h360⟩,
    ⟨pyMod_nonneg _ _ h360, pyMod_lt _ _ h360⟩,
    ⟨pyMod_nonneg _ _ h360, pyMod_lt _ _ h360⟩⟩

/-! ## CompatibilityEngine

astro_calculator.py lines 453-554 (calculate_compatibility; repeated
verbatim in accurate_calculator.py 601-699). The two charts enter the rule
evaluation only through the Moon mansion indices nak1_idx, nak2_idx
(list indices in NAKSHATRAS_TAMIL, 0-26) and the Moon sign indices
rasi1_idx, rasi2_idx (list indices in RASIS_TAMIL, 0-11). -/

/-- The three temperament groups of the Gana rule (line 482-485). -/
inductive Gana where
  | deva | manita | asura
deriving DecidableEq, Repr

/-- Gana group membership lists (line 482-485), keyed by mansion index. -/
def deva_gana : List ℕ := [0, 4, 6, 7, 12, 16, 21, 26]

def manita_gana : List ℕ := [1, 3, 5, 10, 11, 19, 20, 24, 25]

def asura_gana : List ℕ := [2, 8, 9, 13, 14, 15, 17, 18, 22, 23]

/-- The gana1/gana2 lookup loop (lines 487-492): iterate the groups in
insertion order, remembering the last group that contains the index
(the value stays None when no group matches). -/
def gana_of (n : ℕ) : Option Gana :=
  let g : Option Gana := none
  let g := if n ∈ deva_gana then some Gana.deva else g
  let g := if n ∈ manita_gana then some Gana.manita else g
  if n ∈ asura_gana then some Gana.asura else g

/-- rajju_groups (line 506). -/
def rajju_groups : List (List ℕ) :=
  [[0, 5, 6, 11, 12, 17, 18, 23, 24], [1, 4, 7, 10, 13, 16, 19, 22, 25],
   [2, 3, 8, 9, 14, 15, 20, 21, 26]]

/-- The rajju1/rajju2 lookup loop (lines 507-512): starts at 0 and keeps
the index of the last group that contains the mansion. -/
def rajju_of (n : ℕ) : ℕ :=
  let r : ℕ := 0
  let r := if n ∈ rajju_groups.getD 0 [] then 0 else r
  let r := if n ∈ rajju_groups.getD 1 [] then 1 else r
  if n ∈ rajju_groups.getD 2 [] then 2 else r

/-- nadi_groups (line 535). -/
def nadi_groups : List (List ℕ) :=
  [[0, 3, 6, 9, 12, 15, 18, 21, 24], [1, 4, 7, 10, 13, 16, 19, 22, 25],
   [2, 5, 8, 11, 14, 17, 20, 23, 26]]

/-- The nadi1/nadi2 lookup loop (lines 536-541). -/
def nadi_of (n : ℕ) : ℕ :=
  let r : ℕ := 0
  let r := if n ∈ nadi_groups.getD 0 [] then 0 else r
  let r := if n ∈ nadi_groups.getD 1 [] then 1 else r
  if n ∈ nadi_groups.getD 2 [] then 2 else r

/-- rasi_diff (line 497): (rasi2_idx - rasi1_idx) % 12. -/
def rasi_diff (rasi1_idx rasi2_idx : ℕ) : ℤ :=
  ((rasi2_idx : ℤ) - (rasi1_idx : ℤ)) % 12

/-- Rule 1, dina_good (line 478). -/
abbrev dina_good (nak1_idx nak2_idx : ℕ) : Prop :=
  dina_count nak1_idx nak2_idx ∉ ([2, 4, 6, 8, 9, 11, 13, 15, 18, 20, 22, 24, 26] : List ℤ)

/-- Rule 2, gana_good (line 493). -/
abbrev gana_good (nak1_idx nak2_idx : ℕ) : Prop :=
  gana_of nak1_idx = gana_of nak2_idx ∨ gana_of nak1_idx = some Gana.deva ∨
    gana_of nak2_idx = some Gana.deva

/-- Rule 3, rasi_good (line 498). -/
abbrev rasi_good (rasi1_idx rasi2_idx : ℕ) : Prop :=
  rasi_diff rasi1_idx rasi2_idx ∈ ([1, 2, 3, 4, 5, 7, 9, 11] : List ℤ)

/-- Rule 4, yoni_good (line 502): abs(nak1_idx - nak2_idx) % 2 == 0. -/
abbrev yoni_good (nak1_idx nak2_idx : ℕ) : Prop :=
  |(nak1_idx : ℤ) - (nak2_idx : ℤ)| % 2 = 0

/-- Rule 5, rajju_good (line 513). -/
abbrev rajju_good (nak1_idx nak2_idx : ℕ) : Prop :=
  rajju_of nak1_idx ≠ rajju_of nak2_idx

/-- Rule 6, vedha_good (line 517). -/
abbrev vedha_good (nak1_idx nak2_idx : ℕ) : Prop :=
  |(nak1_idx : ℤ) - (nak2_idx : ℤ)| ∉ ([1, 3, 5, 7] : List ℤ)

/-- Rule 7, vasya_good (line 521). -/
abbrev vasya_good (rasi1_idx rasi2_idx : ℕ) : Prop :=
  rasi_diff rasi1_idx rasi2_idx ∈ ([2, 5, 6, 8, 9] : List ℤ)

/-- Rule 8, mahendra_good (line 526). -/
abbrev mahendra_good (nak1_idx nak2_idx : ℕ) : Prop :=
  mahendra_count nak1_idx nak2_idx ∈ ([4, 7, 10, 13, 16, 19, 22, 25] : List ℤ)

/-- Rule 9, stree_good (line 531): stree_count >= 13. -/
abbrev stree_good (nak1_idx nak2_idx : ℕ) : Prop :=
  13 ≤ stree_count nak1_idx nak2_idx

/-- Rule 10, nadi_good (line 542). -/
abbrev nadi_good (nak1_idx nak2_idx : ℕ) : Prop :=
  nadi_of nak1_idx ≠ nadi_of nak2_idx

/-- Per-rule score (the dict values at lines 479-543): 1 if the rule
passes, else 0. -/
def porutham_values (nak1_idx nak2_idx rasi1_idx rasi2_idx : ℕ) : List ℕ :=
  [if dina_good nak1_idx nak2_idx then 1 else 0,
   if gana_good nak1_idx nak2_idx then 1 else 0,
   if rasi_good rasi1_idx rasi2_idx then 1 else 0,
   if yoni_good nak1_idx nak2_idx then 1 else 0,
   if rajju_good nak1_idx nak2_idx then 1 else 0,
   if vedha_good nak1_idx nak2_idx then 1 else 0,
   if vasya_good rasi1_idx rasi2_idx then 1 else 0,
   if mahendra_good nak1_idx nak2_idx then 1 else 0,
   if stree_good nak1_idx nak2_idx then 1 else 0,
   if nadi_good nak1_idx nak2_idx then 1 else 0]

/-- total (line 546): the sum of the ten rule scores. -/
def total_score (nak1_idx nak2_idx rasi1_idx rasi2_idx : ℕ) : ℕ :=
  (porutham_values nak1_idx nak2_idx rasi1_idx rasi2_idx).sum

/-- Verdict string (line 553), banded by total >= 8, >= 6, >= 4, else. -/
def verdict_of (total : ℕ) : String :=
  if 8 ≤ total then "மிகச்சிறந்த பொருத்தம்"
  else if 6 ≤ total then "நல்ல பொருத்தம்"
  else if 4 ≤ total then "சாதாரண பொருத்தம்"
  else "குறைவான பொருத்தம்"

/-- C3: calculate_compatibility evaluates exactly ten boolean rules, each
contributing 0 or 1, so the total lies in [0, 10], and the verdict is
banded into exactly four tiers at the thresholds 8, 6 and 4. -/
theorem compatibility_score_spec (nak1_idx nak2_idx rasi1_idx rasi2_idx : ℕ) :
    (porutham_values nak1_idx nak2_idx rasi1_idx rasi2_idx).length = 10 ∧
    (∀ v ∈ porutham_values nak1_idx nak2_idx rasi1_idx rasi2_idx, v = 0 ∨ v = 1) ∧
    total_score nak1_idx nak2_idx rasi1_idx rasi2_idx ≤ 10 ∧
    (8 ≤ total_score nak1_idx nak2_idx rasi1_idx rasi2_idx →
      verdict_of (total_score nak1_idx nak2_idx rasi1_idx rasi2_idx)
        = "மிகச்சிறந்த பொருத்தம்") ∧
    (6 ≤ total_score nak1_idx nak2_idx rasi1_idx rasi2_idx →
      total_score nak1_idx nak2_idx rasi1_idx rasi2_idx < 8 →
      verdict_of (total_score nak1_idx nak2_idx rasi1_idx rasi2_idx)
        = "நல்ல பொருத்தம்") ∧
    (4 ≤ total_score nak1_idx nak2_idx rasi1_idx rasi2_idx →
      total_score nak1_idx nak2_idx rasi1_idx rasi2_idx < 6 →
      verdict_of (total_score nak1_idx nak2_idx rasi1_idx rasi2_idx)
        = "சாதாரண பொருத்தம்") ∧
    (total_score nak1_idx nak2_idx rasi1_idx rasi2_idx < 4 →
      verdict_of (total_score nak1_idx nak2_idx rasi1_idx rasi2_idx)
        = "குறைவான பொருத்தம்") := by
  have hmem : ∀ v ∈ porutham_values nak1_idx nak2_idx rasi1_idx rasi2_idx,
      v = 0 ∨ v = 1 := by
    intro v hv
    simp only [porutham_values, List.mem_cons, List.not_mem_nil, or_false] at hv
    rcases hv with rfl | rfl | rfl | rfl | rfl | rfl | rfl | rfl | rfl | rfl <;>
      (split <;> simp)
  refine ⟨rfl, hmem, ?_, ?_, ?_, ?_, ?_⟩
  · have h1 : ∀ (c : Prop) (inst : Decidable c), (if c then 1 else 0) ≤ 1 := by
      intro c inst
      split <;> omega
    simp only [total_score, porutham_values, List.sum_cons, List.sum_nil]
    have := h1 (dina_good nak1_idx nak2_idx) inferInstance
    have := h1 (gana_good nak1_idx nak2_idx) inferInstance
    have := h1 (rasi_good rasi1_idx rasi2_idx) inferInstance
    have := h1 (yoni_good nak1_idx nak2_idx) inferInstance
    have := h1 (rajju_good nak1_idx nak2_idx) inferInstance
    have := h1 (vedha_good nak1_idx nak2_idx) inferInstance
    have := h1 (vasya_good rasi1_idx rasi2_idx) inferInstance
    have := h1 (mahendra_good nak1_idx nak2_idx) inferInstance
    have := h1 (stree_good nak1_idx nak2_idx) inferInstance
    have := h1 (nadi_good nak1_idx nak2_idx) inferInstance
    omega
  · intro h
    rw [verdict_of, if_pos h]
  · intro h6 h8
    rw [verdict_of, if_neg (by omega), if_pos h6]
  · intro h4 h6
    rw [verdict_of, if_neg (by omega), if_neg (by omega), if_pos h4]
  · intro h4
    rw [verdict_of, if_neg (by omega), if_neg (by omega), if_neg (by omega)]

/-- C10: when the two Moon mansion indices are equal and the two Moon sign
indices are equal, exactly the Dina, Gana, Yoni and Vedha rules pass, the
other six fail, the total is exactly 4 and the verdict is the third tier. -/
theorem self_compatibility_spec (n r : ℕ) :
    dina_good n n ∧ gana_good n n ∧ yoni_good n n ∧ vedha_good n n ∧
    ¬ rasi_good r r ∧ ¬ rajju_good n n ∧ ¬ vasya_good r r ∧
    ¬ mahendra_good n n ∧ ¬ stree_good n n ∧ ¬ nadi_good n n ∧
    total_score n n r r = 4 ∧
    verdict_of (total_score n n r r) = "சாதாரண பொருத்தம்" := by
  have hcount : ((n : ℤ) - (n : ℤ)) % 27 + 1 = 1 := by simp
  have hdiff : rasi_diff r r = 0 := by simp [rasi_diff]
  have h1 : dina_good n n := by
    show dina_count n n ∉ _
    rw [dina_count, hcount]
    decide
  have h2 : gana_good n n := Or.inl rfl
  have h4 : yoni_good n n := by
    show _ % 2 = 0
    simp
  have h6 : vedha_good n n := by
    show |(n : ℤ) - (n : ℤ)| ∉ _
    simp
  have hrasi : ¬ rasi_good r r := by
    show ¬ (rasi_diff r r ∈ _)
    rw [hdiff]
    decide
  have hrajju : ¬ rajju_good n n := by
    show ¬ (rajju_of n ≠ rajju_of n)
    simp
  have hvasya : ¬ vasya_good r r := by
    show ¬ (rasi_diff r r ∈ _)
    rw [hdiff]
    decide
  have hmahendra : ¬ mahendra_good n n := by
    show ¬ (mahendra_count n n ∈ _)
    rw [mahendra_count, hcount]
    decide
  have hstree : ¬ stree_good n n := by
    show ¬ (13 ≤ stree_count n n)
    rw [stree_count, hcount]
    decide
  have hnadi : ¬ nadi_good n n := by
    show ¬ (nadi_of n ≠ nadi_of n)
    simp
  have htotal : total_score n n r r = 4 := by
    simp [total_score, porutham_values, h1, h2, h4, h6, hrasi, hrajju, hvasya,
      hmahendra, hstree, hnadi]
  refine ⟨h1, h2, h4, h6, hrasi, hrajju, hvasya, hmahendra, hstree, hnadi, htotal, ?_⟩
  rw [htotal, verdict_of, if_neg (by norm_num), if_neg (by norm_num), if_pos (by norm_num)]

/-! ## Malformed date/time input

astro_calculator.py lines 165-169 and accurate_calculator.py lines 238-242:
calculate_birth_chart concatenates dt_str = f"{birth_date} {birth_time}" and
calls datetime.strptime(dt_str, "%Y-%m-%d %H:%M"). CPython strptime compiles
the format to the regex \d\d\d\d-(1[0-2]|0[1-9]|[1-9])-(3[01]|[12]\d|0[1-9]|
[1-9]) (2[0-3]|[0-1]\d|\d):([0-5]\d|\d), requires the whole string to match,
and then the datetime constructor checks the calendar ranges; on any failure
it raises the builtin ValueError. The repository defines no other error type
for this path. -/

/-- Python exception classes relevant to the date/time parse: the builtin
ValueError that strptime and the datetime constructor raise, and the
InvalidInputError named by the specification (defined nowhere in the
repository). -/
inductive PyErr where
  | valueError | invalidInputError
deriving DecidableEq, Repr

/-- A parsed civil timestamp, the payload of datetime.strptime under the
format "%Y-%m-%d %H:%M". -/
structure DT where
  year : ℕ
  month : ℕ
  day : ℕ
  hour : ℕ
  minute : ℕ
deriving DecidableEq, Repr

/-- Numeric value of a decimal digit character. -/
def digitVal (c : Char) : ℕ := c.toNat - 48

/-- Regex fragment for %Y: exactly four digits. -/
def matchYear (cs : List Char) (k : ℕ → List Char → Option DT) : Option DT :=
  match cs with
  | a :: b :: c :: d :: rest =>
    if a.isDigit ∧ b.isDigit ∧ c.isDigit ∧ d.isDigit then
      k (digitVal a * 1000 + digitVal b * 100 + digitVal c * 10 + digitVal d) rest
    else none
  | _ => none

/-- Literal character of the format string. -/
def matchLit (ch : Char) (cs : List Char) (k : List Char → Option DT) : Option DT :=
  match cs with
  | c :: rest => if c = ch then k rest else none
  | [] => none

/-- Regex fragment for %m: 1[0-2] | 0[1-9] | [1-9], alternatives tried in
order with backtracking through the continuation. -/
def matchMonth (cs : List Char) (k : ℕ → List Char → Option DT) : Option DT :=
  (match cs with
   | '1' :: c :: rest => if '0' ≤ c ∧ c ≤ '2' then k (10 + digitVal c) rest else none
   | _ => none) <|>
  (match cs with
   | '0' :: c :: rest => if '1' ≤ c ∧ c ≤ '9' then k (digitVal c) rest else none
   | _ => none) <|>
  (match cs with
   | c :: rest => if '1' ≤ c ∧ c ≤ '9' then k (digitVal c) rest else none
   | _ => none)

/-- Regex fragment for %d: 3[01] | [12]\d | 0[1-9] | [1-9]. -/
def matchDay (cs : List Char) (k : ℕ → List Char → Option DT) : Option DT :=
  (match cs with
   | '3' :: c :: rest => if c = '0' ∨ c = '1' then k (30 + digitVal c) rest else none
   | _ => none) <|>
  (match cs with
   | a :: c :: rest =>
     if (a = '1' ∨ a = '2') ∧ c.isDigit then k (digitVal a * 10 + digitVal c) rest else none
   | _ => none) <|>
  (match cs with
   | '0' :: c :: rest => if '1' ≤ c ∧ c ≤ '9' then k (digitVal c) rest else none
   | _ => none) <|>
  (match cs with
   | c :: rest => if '1' ≤ c ∧ c ≤ '9' then k (digitVal c) rest else none
   | _ => none)

/-- Regex fragment for %H: 2[0-3] | [0-1]\d | \d. -/
def matchHour (cs : List Char) (k : ℕ → List Char → Option DT) : Option DT :=
  (match cs with
   | '2' :: c :: rest => if '0' ≤ c ∧ c ≤ '3' then k (20 + digitVal c) rest else none
   | _ => none) <|>
  (match cs with
   | a :: c :: rest =>
     if (a = '0' ∨ a = '1') ∧ c.isDigit then k (digitVal a * 10 + digitVal c) rest else none
   | _ => none) <|>
  (match cs with
   | c :: rest => if c.isDigit then k (digitVal c) rest else none
   | _ => none)

/-- Regex fragment for %M: [0-5]\d | \d. -/
def matchMinute (cs : List Char) (k : ℕ → List Char → Option DT) : Option DT :=
  (match cs with
   | a :: c :: rest =>
     if ('0' ≤ a ∧ a ≤ '5') ∧ c.isDigit then k (digitVal a * 10 + digitVal c) rest else none
   | _ => none) <|>
  (match cs with
   | c :: rest => if c.isDigit then k (digitVal c) rest else none
   | _ => none)

/-- Full-string match of the compiled format "%Y-%m-%d %H:%M" (strptime
raises for any unconverted trailing data, hence the final emptiness
check). -/
def matchFormat (cs : List Char) : Option DT :=
  matchYear cs fun y r1 =>
  matchLit '-' r1 fun r2 =>
  matchMonth r2 fun mo r3 =>
  matchLit '-' r3 fun r4 =>
  matchDay r4 fun d r5 =>
  matchLit ' ' r5 fun r6 =>
  matchHour r6 fun h r7 =>
  matchLit ':' r7 fun r8 =>
  matchMinute r8 fun mi r9 =>
  if r9 = [] then some ⟨y, mo, d, h, mi⟩ else none

/-- Gregorian leap-year rule used by the datetime constructor. -/
def isLeapYear (y : ℕ) : Bool := (y % 4 == 0 && y % 100 != 0) || y % 400 == 0

/-- Days in a month, per the datetime constructor's calendar. -/
def daysInMonth (y : ℕ) : ℕ → ℕ
  | 1 => 31 | 2 => if isLeapYear y then 29 else 28 | 3 => 31 | 4 => 30 | 5 => 31
  | 6 => 30 | 7 => 31 | 8 => 31 | 9 => 30 | 10 => 31 | 11 => 30 | 12 => 31
  | _ => 0

/-- Range checks of the datetime constructor (MINYEAR = 1; the month, hour
and minute ranges are already enforced by the regex, the day-of-month check
against the calendar is not). -/
def dtValid (t : DT) : Bool :=
  decide (1 ≤ t.year) && decide (1 ≤ t.month) && decide (t.month ≤ 12) &&
  decide (1 ≤ t.day) && decide (t.day ≤ daysInMonth t.year t.month) &&
  decide (t.hour ≤ 23) && decide (t.minute ≤ 59)

/-- datetime.strptime(s, "%Y-%m-%d %H:%M") followed by the datetime
constructor: a parsed, calendar-valid timestamp, or the builtin ValueError. -/
def strptime_date_time (s : String) : Except PyErr DT :=
  match matchFormat s.data with
  | none => Except.error PyErr.valueError
  | some t => if dtValid t then Except.ok t else Except.error PyErr.valueError

/-- Parse step of calculate_birth_chart (astro_calculator.py 165-169,
accurate_calculator.py 238-242): dt_str = f"{birth_date} {birth_time}"
fed to strptime. -/
def parse_birth_datetime (birth_date birth_time : String) : Except PyErr DT :=
  strptime_date_time (birth_date ++ " " ++ birth_time)

/-- C9 counterexample: on the malformed civil date 2023-02-31 (a day out of
range for the month) calculate_birth_chart's parse step fails with the
builtin ValueError, which is not the InvalidInputError the claim names; no
InvalidInputError class exists anywhere in the repository. -/
theorem malformed_input_counterexample :
    parse_birth_datetime "2023-02-31" "10:30" = Except.error PyErr.valueError ∧
    (Except.error PyErr.valueError : Except PyErr DT) ≠ Except.error PyErr.invalidInputError := by
  constructor
  · rfl
  · intro h
    exact PyErr.noConfusion (Except.error.inj h)

/-- C9 (amended): for every pair of date and time strings the parse step of
calculate_birth_chart either returns the parsed calendar-valid timestamp or
fails with the builtin ValueError; it never substitutes a default date or
time and never raises any other error. -/
theorem malformed_input_amended (birth_date birth_time : String) :
    parse_birth_datetime birth_date birth_time = Except.error PyErr.valueError ∨
    ∃ t, parse_birth_datetime birth_date birth_time = Except.ok t ∧ dtValid t = true := by
  rw [parse_birth_datetime, strptime_date_time]
  rcases hm : matchFormat (birth_date ++ " " ++ birth_time).data with _ | t
  · exact Or.inl rfl
  · by_cases h : dtValid t = true
    · refine Or.inr ⟨t, ?_, h⟩
      show (if dtValid t then Except.ok t else Except.error PyErr.valueError) = Except.ok t
      rw [if_pos h]
    · refine Or.inl ?_
      show (if dtValid t then Except.ok t else Except.error PyErr.valueError)
        = Except.error PyErr.valueError
      rw [if_neg h]
